import Mathlib

/-!
Shallow embedding of the multi-agent report generation pipeline of the
repository: the coordinator in coordinator.py and the four agents under
agents/.  External effects (calls to the language-model service, JSON
parsing of its replies via json.loads, chart rendering, file writes) are
modelled as oracle parameters that describe the outcome of each call, in
call order; everything else is translated directly from the Python
source.  Python dicts are modelled as insertion-ordered association
lists.  Wall-clock data (timestamps, durations) interpolated into log
strings is omitted, since no verified property depends on it.
-/

namespace Report

abbrev Chars := List Char

/-- Build a string from an explicit character list. -/
def ofL (l : Chars) : String := ⟨l⟩

/-- Python substring test, the expression pat in s for strings. -/
def strContains (s pat : String) : Bool := decide (pat.data <:+: s.data)

/-- Python str.split with a single newline as separator, on character lists. -/
def splitLinesL : Chars → Chars → List Chars
  | [], acc => [acc.reverse]
  | '\n' :: rest, acc => acc.reverse :: splitLinesL rest []
  | c :: rest, acc => splitLinesL rest (c :: acc)

/-- Python str.strip with no argument: drop whitespace at both ends. -/
def pyStripL (l : Chars) : Chars :=
  (((l.dropWhile Char.isWhitespace).reverse).dropWhile Char.isWhitespace).reverse

/-- Characters removed by the outline parser, Python lstrip with digits, dot, dash, space. -/
def numberingChars : Chars := ['0', '1', '2', '3', '4', '5', '6', '7', '8', '9', '.', '-', ' ']

/-- Python str.lstrip with the numbering character set. -/
def pyLstripNumL (l : Chars) : Chars := l.dropWhile (fun c => numberingChars.contains c)

/-- Python str.split with no argument: split at whitespace runs, dropping empty pieces. -/
def pySplitWsL : Chars → Chars → List Chars
  | [], [] => []
  | [], acc => [acc.reverse]
  | c :: rest, acc =>
    if c.isWhitespace then
      match acc with
      | [] => pySplitWsL rest []
      | _ => acc.reverse :: pySplitWsL rest []
    else pySplitWsL rest (c :: acc)

/-- Python str.replace of the full stop 。 by 。 followed by a blank line. -/
def replaceDotL (l : Chars) : Chars :=
  (l.map (fun c => if c = '。' then ['。', '\n', '\n'] else [c])).flatten

/-- Python str.split on the two-character separator of one blank line. -/
def splitParaL : Chars → Chars → List Chars
  | [], acc => [acc.reverse]
  | '\n' :: '\n' :: rest, acc => acc.reverse :: splitParaL rest []
  | c :: rest, acc => splitParaL rest (c :: acc)

/-- Insertion-ordered association-list update, the semantics of Python dict assignment:
an existing key keeps its position and gets the new value, a new key is appended. -/
def dictInsert (m : List (String × String)) (k v : String) : List (String × String) :=
  if m.any (fun p => p.1 == k) then m.map (fun p => if p.1 == k then (k, v) else p)
  else m ++ [(k, v)]

namespace OutlineAgent

/-- Embeds OutlineAgent parse method: strip the response, split into lines, strip each
line and remove leading numbering characters, keep lines longer than 3 characters,
cap at 10 entries. -/
def parse_outline (response : String) : List String :=
  let lines := splitLinesL (pyStripL response.data) []
  let kept := ((lines.map (fun l => pyLstripNumL (pyStripL l))).filter (fun l => l.length > 3)).map ofL
  kept.take 10

/-- Embeds OutlineAgent default outline method: the fixed 8-entry fallback outline. -/
def default_outline (topic : String) : List String :=
  [topic ++ "概述",
   topic ++ "的背景与意义",
   topic ++ "的现状分析",
   topic ++ "的关键技术/方法",
   topic ++ "的应用案例",
   topic ++ "面临的挑战",
   topic ++ "的发展趋势",
   "结论与建议"]

/-- Introduction marker test on one outline entry. -/
def introMark (s : String) : Bool :=
  strContains s "引言" || strContains s "概述" || strContains s "导论"

/-- Conclusion marker test on one outline entry. -/
def conclMark (s : String) : Bool :=
  strContains s "结论" || strContains s "总结" || strContains s "展望"

/-- Outline-level introduction test. -/
def hasIntro (outline : List String) : Bool := outline.any introMark

/-- Outline-level conclusion test. -/
def hasConcl (outline : List String) : Bool := outline.any conclMark

/-- Embeds OutlineAgent validate method: fewer than 3 entries falls back to the
default outline; otherwise a missing introduction entry is inserted at the front
and a missing conclusion entry is appended, both decided on the input outline. -/
def validate_outline (outline : List String) (topic : String) : List String :=
  if outline.length < 3 then default_outline topic
  else if hasConcl outline then
    (if hasIntro outline then outline else (topic ++ "概述") :: outline)
  else
    (if hasIntro outline then outline else (topic ++ "概述") :: outline) ++ ["结论与展望"]

/-- Embeds OutlineAgent.generate_outline: one generation-service call whose reply is
the oracle argument; a service failure falls back to the default outline, a reply is
parsed and validated.  The report type argument only selects the prompt wording in
the source, so it does not influence the result here. -/
def generate_outline (reply : Except String String) (topic : String)
    (report_type : String) : List String :=
  match reply with
  | .ok r => validate_outline (parse_outline r) topic
  | .error _ => default_outline topic

end OutlineAgent

namespace ContentAgent

/-- Embeds ContentAgent post-processing: collapse whitespace runs to single spaces,
turn every full stop into a paragraph break, then strip and drop empty paragraphs. -/
def post_process_content (content : String) : String :=
  let c1 : Chars := List.intercalate [' '] (pySplitWsL content.data [])
  let c2 : Chars := replaceDotL c1
  let parts := ((splitParaL c2 []).map pyStripL).filter (fun p => p ≠ [])
  ofL (List.intercalate ['\n', '\n'] parts)

/-- Embeds ContentAgent fallback content: the fixed template referencing the section
title and the topic, used when a per-section generation call fails. -/
def fallback_content (section_title topic : String) : String :=
  "\n这里是关于 \"" ++ section_title ++ "\" 的内容。\n\n在这个章节中，我们将深入探讨与 \"" ++ topic ++
  "\" 相关的 \"" ++ section_title ++ "\" 方面的重要内容。\n\n本章节将从以下几个角度进行分析：\n- 基本概念和定义\n- 现状和发展趋势\n- 关键技术和方法\n- 实际应用和案例\n- 存在的挑战和问题\n- 未来的发展方向\n\n通过本章节的学习，读者将能够全面了解 \"" ++
  section_title ++ "\" 在 \"" ++ topic ++ "\" 领域中的重要作用和价值。\n\n注：此内容为系统自动生成的备用内容，建议进一步完善和补充具体信息。\n"

/-- Embeds ContentAgent.generate_section_content: one generation-service call; a
successful reply is post-processed, a failure yields the fallback template. -/
def generate_section_content (reply : Except String String)
    (section_title topic : String) : String :=
  match reply with
  | .ok r => post_process_content r
  | .error _ => fallback_content section_title topic

/-- Recursion underlying generate_all_sections: one indexed generation call per
outline entry, results inserted into the section dict in outline order. -/
def generate_all_go (reply : Nat → Except String String) (topic : String) :
    List String → Nat → List (String × String) → List (String × String)
  | [], _, acc => acc
  | t :: rest, i, acc =>
      generate_all_go reply topic rest (i + 1)
        (dictInsert acc t (generate_section_content (reply i) t topic))

/-- Embeds ContentAgent.generate_all_sections over an oracle giving the reply of the
generation call for each section index. -/
def generate_all_sections (reply : Nat → Except String String) (outline : List String)
    (topic : String) : List (String × String) :=
  generate_all_go reply topic outline 0 []

end ContentAgent

namespace PolishAgent

/-- Recursion underlying polish_full_report: the contextual polish helper makes one
generation call per section and returns the reply unchanged; that call has no local
exception handler, so the first failing call aborts the whole loop. -/
def polish_go (reply : Nat → Except String String) :
    List (String × String) → Nat → List (String × String) →
    Except String (List (String × String))
  | [], _, acc => .ok acc
  | sc :: rest, i, acc =>
      match reply i with
      | .ok r => polish_go reply rest (i + 1) (dictInsert acc sc.1 r)
      | .error e => .error e

/-- Embeds PolishAgent.polish_full_report over an oracle giving the reply of the
polish generation call for each section index. -/
def polish_full_report (reply : Nat → Except String String)
    (sections : List (String × String)) : Except String (List (String × String)) :=
  polish_go reply sections 0 []

end PolishAgent

namespace ChartAgent

/-- Chart requirement record, the dict produced by chart analysis.  Fields absent
from a parsed JSON object are modelled as the empty string. -/
structure ChartReq where
  chart_type : String
  title : String
  description : String
  priority : Nat := 3
  section_title : String := ""
  section_content : String := ""
deriving DecidableEq

/-- Keys of the supported chart-type table of the agent. -/
def chart_types_keys : List String :=
  ["bar", "line", "pie", "scatter", "histogram", "box", "heatmap", "table"]

/-- Embeds the requirement validation: the three required fields are non-empty and
the chart type is a key of the supported table. -/
def validate_chart_requirement (r : ChartReq) : Bool :=
  !(r.chart_type == "") && !(r.title == "") && !(r.description == "") &&
  chart_types_keys.contains r.chart_type

/-- Fixed keyword-to-chart-kind table of the text fallback, in source order. -/
def chart_keywords : List (String × String) :=
  [("柱状图", "bar"), ("条形图", "bar"), ("折线图", "line"), ("饼图", "pie"),
   ("散点图", "scatter"), ("表格", "table")]

/-- Embeds the text fallback: scan the reply text for each keyword of the fixed
table, emit one requirement per present keyword, cap the result at 3. -/
def extract_requirements_from_text (text : String) : List ChartReq :=
  ((chart_keywords.filter (fun kw => strContains text kw.1)).map (fun kw =>
    { chart_type := kw.2, title := kw.1 ++ "示例",
      description := "基于内容生成的" ++ kw.1, priority := 3 })).take 3

/-- Embeds the requirement parser: the jsonLoads oracle is the outcome of Python
json.loads on the reply (none models a JSON decode error); a parsed list is
filtered by validation, a decode error falls back to the keyword scan. -/
def parse_chart_requirements (jsonLoads : String → Option (List ChartReq))
    (response : String) : List ChartReq :=
  match jsonLoads response with
  | some reqs => reqs.filter validate_chart_requirement
  | none => extract_requirements_from_text response

/-- Embeds the per-section visualization analysis: one generation call; a failure is
caught and yields no requirements, a reply is parsed and every requirement is
tagged with the section title and a 200-character content excerpt. -/
def analyze_section_for_visualization (reply : Except String String)
    (jsonLoads : String → Option (List ChartReq))
    (section_title content : String) : List ChartReq :=
  match reply with
  | .error _ => []
  | .ok r =>
      (parse_chart_requirements jsonLoads r).map (fun q =>
        { q with section_title := section_title,
                 section_content := ofL (content.data.take 200) ++ "..." })

/-- Recursion underlying analyze_content_for_charts: sections analyzed in order,
requirement lists concatenated. -/
def analyze_go (reply : Nat → Except String String)
    (jsonLoads : String → Option (List ChartReq)) :
    List (String × String) → Nat → List ChartReq
  | [], _ => []
  | sc :: rest, i =>
      analyze_section_for_visualization (reply i) jsonLoads sc.1 sc.2 ++
      analyze_go reply jsonLoads rest (i + 1)

/-- Embeds ChartAgent.analyze_content_for_charts over an oracle giving the reply of
the analysis call for each section index. -/
def analyze_content_for_charts (reply : Nat → Except String String)
    (jsonLoads : String → Option (List ChartReq))
    (sections : List (String × String)) : List ChartReq :=
  analyze_go reply jsonLoads sections 0

/-- Chart types with a rendering branch in the single-chart dispatcher. -/
def supported_plot_types : List String := ["bar", "line", "pie", "scatter", "table"]

/-- Python format specifier 03d on a natural number. -/
def pad3 (n : Nat) : String :=
  if n < 10 then "00" ++ toString n
  else if n < 100 then "0" ++ toString n
  else toString n

/-- File name chosen for a chart: counter, chart type and the first 20 title
characters. -/
def chart_filename (counter : Nat) (q : ChartReq) : String :=
  "chart_" ++ pad3 counter ++ "_" ++ q.chart_type ++ "_" ++ ofL (q.title.data.take 20) ++ ".png"

/-- Embeds the single-chart generator: the counter is incremented first; a type with
a rendering branch renders (the renderOk oracle tells whether the drawing library
call for that counter value succeeds, a failure raises), any other type returns no
path. -/
def generate_single_chart (renderOk : Nat → Bool) (output_dir : String)
    (counter : Nat) (q : ChartReq) : Except String (Option String) × Nat :=
  let c := counter + 1
  let fp := output_dir ++ "/" ++ chart_filename c q
  if supported_plot_types.contains q.chart_type then
    if renderOk c then (.ok (some fp), c) else (.error "图表渲染失败", c)
  else (.ok none, c)

/-- Recursion underlying generate_charts: each requirement is rendered inside a
per-item exception handler; a successful path is stored in the result dict under
the requirement title, a failure or an unsupported type is skipped. -/
def generate_charts_go (renderOk : Nat → Bool) (output_dir : String) :
    List ChartReq → Nat → List (String × String) → List (String × String) × Nat
  | [], c, acc => (acc, c)
  | q :: rest, c, acc =>
      match generate_single_chart renderOk output_dir c q with
      | (.ok (some p), c2) => generate_charts_go renderOk output_dir rest c2 (dictInsert acc q.title p)
      | (.ok none, c2) => generate_charts_go renderOk output_dir rest c2 acc
      | (.error _, c2) => generate_charts_go renderOk output_dir rest c2 acc

/-- Embeds ChartAgent.generate_charts, threading the chart counter. -/
def generate_charts (renderOk : Nat → Bool) (output_dir : String)
    (reqs : List ChartReq) (counter : Nat) : List (String × String) × Nat :=
  generate_charts_go renderOk output_dir reqs counter []

end ChartAgent

/-- Workflow completion flags of the coordinator, all false initially. -/
structure Workflow where
  outline_generated : Bool := false
  content_generated : Bool := false
  content_polished : Bool := false
  charts_generated : Bool := false
  report_formatted : Bool := false
deriving DecidableEq

/-- Mutable coordinator state: workflow flags, the generation log, and the chart
counter held by the chart agent. -/
structure CoordState where
  workflow : Workflow := {}
  generation_log : List String := []
  chart_counter : Nat := 0
deriving DecidableEq

/-- Coordinator state right after construction. -/
def initState : CoordState := {}

/-- Embeds the coordinator log helper; the wall-clock timestamp prefix is omitted. -/
def logMsg (m : String) (st : CoordState) : CoordState :=
  { st with generation_log := st.generation_log ++ [m] }

/-- Outcome of the rich-text export attempt: success, the import error raised when
the docx library is absent, or any other exception. -/
inductive DocxOutcome
  | ok
  | importError
  | failed (msg : String)
deriving DecidableEq

/-- Oracle bundle fixing the outcome of every external call of one run: the
generation-service replies per stage and call index, the json.loads outcomes, the
per-counter chart rendering outcomes, and the per-format export outcomes. -/
structure Oracles where
  outlineReply : Except String String
  contentReply : Nat → Except String String
  polishReply : Nat → Except String String
  chartReply : Nat → Except String String
  jsonLoads : String → Option (List ChartAgent.ChartReq)
  renderOk : Nat → Bool
  mdWrite : Except String Unit
  jsonWrite : Except String Unit
  docxWrite : DocxOutcome

/-- Report payload assembled in step 5 of a successful run; the two wall-clock
fields of the source dict are omitted. -/
structure ReportData where
  title : String
  report_type : String
  outline : List String
  sections : List (String × String)
  charts : List (String × String)
deriving DecidableEq

/-- Result dictionary returned by generate_report: the success shape or the error
shape, each carrying the workflow snapshot and the generation log. -/
inductive RunResult
  | success (data : ReportData) (output_files : List (String × String))
      (workflow : Workflow) (log : List String)
  | failure (topic : String) (error : String) (workflow : Workflow) (log : List String)
deriving DecidableEq

/-- Status field of a run result. -/
def RunResult.status : RunResult → String
  | .success .. => "success"
  | .failure .. => "error"

/-- Workflow snapshot carried by a run result. -/
def RunResult.workflowOf : RunResult → Workflow
  | .success _ _ w _ => w
  | .failure _ _ w _ => w

/-- Generation log carried by a run result. -/
def RunResult.logOf : RunResult → List String
  | .success _ _ _ l => l
  | .failure _ _ _ l => l

/-- Error message carried by a run result, none on success. -/
def RunResult.errorOf : RunResult → Option String
  | .success .. => none
  | .failure _ e _ _ => some e

namespace ReportCoordinator

/-- Embeds the coordinator outline step: the agent call cannot raise (it has its
own fallback), so the flag is set and the count is logged; the re-raising handler
of the source is dead code. -/
def generate_outline (reply : Except String String) (topic report_type : String)
    (st : CoordState) : List String × CoordState :=
  let outline := OutlineAgent.generate_outline reply topic report_type
  (outline,
   logMsg ("大纲生成成功，包含 " ++ toString outline.length ++ " 个章节")
     { st with workflow := { st.workflow with outline_generated := true } })

/-- Embeds the coordinator content step: the agent call cannot raise (every
per-section failure falls back to the template), so the flag is set and the count
is logged; the re-raising handler of the source is dead code. -/
def generate_content (reply : Nat → Except String String) (outline : List String)
    (topic : String) (st : CoordState) : List (String × String) × CoordState :=
  let sections := ContentAgent.generate_all_sections reply outline topic
  (sections,
   logMsg ("内容生成成功，共 " ++ toString sections.length ++ " 个章节")
     { st with workflow := { st.workflow with content_generated := true } })

/-- Embeds the coordinator polish step: a failure anywhere inside the full-report
polish is caught here and the original section dict is returned, the completion
flag staying false. -/
def polish_content (reply : Nat → Except String String)
    (sections : List (String × String)) (st : CoordState) :
    List (String × String) × CoordState :=
  match PolishAgent.polish_full_report reply sections with
  | .ok polished =>
      (polished,
       logMsg "内容润色完成"
         { st with workflow := { st.workflow with content_polished := true } })
  | .error e => (sections, logMsg ("内容润色失败: " ++ e) st)

/-- Embeds the coordinator chart step: requirements are analyzed, an empty
requirement list is logged and yields no charts with the flag left false,
otherwise charts are generated and the flag is set. -/
def generate_charts (o : Oracles) (output_dir : String)
    (sections : List (String × String)) (st : CoordState) :
    List (String × String) × CoordState :=
  let reqs := ChartAgent.analyze_content_for_charts o.chartReply o.jsonLoads sections
  if reqs.isEmpty then ([], logMsg "未发现图表需求" st)
  else
    let res := ChartAgent.generate_charts o.renderOk output_dir reqs st.chart_counter
    (res.1,
     logMsg ("图表生成成功，共 " ++ toString res.1.length ++ " 个图表")
       { st with chart_counter := res.2,
                 workflow := { st.workflow with charts_generated := true } })

/-- Format identifiers with a branch in the export loop. -/
def known_export_formats : List String := ["markdown", "json", "docx"]

/-- Recursion underlying the export step.  A markdown or json outcome failure is
caught by the handler wrapping the whole loop, which logs and re-raises, so later
formats are not attempted; the docx branch has its own inner handlers, logging and
continuing; an unrecognized format matches no branch and is skipped silently.
After the loop the formatted flag is set and the count of written files logged. -/
def export_go (o : Oracles) (output_dir base : String) :
    List String → List (String × String) → CoordState →
    Except String (List (String × String)) × CoordState
  | [], files, st =>
      (.ok files,
       logMsg ("报告已保存为 " ++ toString files.length ++ " 种格式")
         { st with workflow := { st.workflow with report_formatted := true } })
  | fmt :: rest, files, st =>
      if fmt = "markdown" then
        match o.mdWrite with
        | .ok _ =>
            export_go o output_dir base rest
              (dictInsert files "markdown" (output_dir ++ "/" ++ base ++ ".md")) st
        | .error e =>
            (.error ("报告格式化失败: " ++ e), logMsg ("报告格式化失败: " ++ e) st)
      else if fmt = "json" then
        match o.jsonWrite with
        | .ok _ =>
            export_go o output_dir base rest
              (dictInsert files "json" (output_dir ++ "/" ++ base ++ ".json")) st
        | .error e =>
            (.error ("报告格式化失败: " ++ e), logMsg ("报告格式化失败: " ++ e) st)
      else if fmt = "docx" then
        match o.docxWrite with
        | .ok =>
            export_go o output_dir base rest
              (dictInsert files "docx" (output_dir ++ "/" ++ base ++ ".docx")) st
        | .importError =>
            export_go o output_dir base rest files
              (logMsg "警告：python-docx未安装，跳过Word格式输出" st)
        | .failed e =>
            export_go o output_dir base rest files (logMsg ("Word格式输出失败: " ++ e) st)
      else export_go o output_dir base rest files st

/-- Embeds the coordinator export step over the requested format list. -/
def format_and_save_report (o : Oracles) (output_dir base : String)
    (formats : List String) (st : CoordState) :
    Except String (List (String × String)) × CoordState :=
  export_go o output_dir base formats [] st

/-- Embeds the assembly of the final result dict at the end of generate_report:
a successful export yields the success dict, any exception caught by the outer
handler yields the error dict.  The source dicts hold references to the live log
and workflow, so the snapshot they carry includes the final log entry appended
just before returning. -/
def assemble_result (topic report_type : String) (outline : List String)
    (sections charts : List (String × String))
    (p5 : Except String (List (String × String)) × CoordState) : RunResult × CoordState :=
  match p5.1 with
  | .ok files =>
      let stF := logMsg "报告生成完成" p5.2
      (.success ⟨topic, report_type, outline, sections, charts⟩ files stF.workflow stF.generation_log, stF)
  | .error e =>
      let stF := logMsg ("报告生成失败: " ++ e) p5.2
      (.failure topic e stF.workflow stF.generation_log, stF)

/-- Embeds ReportCoordinator.generate_report: the five steps in order, polish and
charts subject to their toggles, everything inside one exception handler whose
only live raise site is the export step. -/
def generate_report (o : Oracles) (output_dir base topic report_type : String)
    (enable_charts enable_polish : Bool) (output_formats : List String)
    (st0 : CoordState) : RunResult × CoordState :=
  let stA := logMsg ("开始生成报告: " ++ topic) st0
  let stB := logMsg "步骤1: 生成报告大纲" stA
  let p1 := generate_outline o.outlineReply topic report_type stB
  let outline := p1.1
  let stC := logMsg "步骤2: 生成章节内容" p1.2
  let p2 := generate_content o.contentReply outline topic stC
  let p3 :=
    if enable_polish then polish_content o.polishReply p2.1 (logMsg "步骤3: 润色报告内容" p2.2)
    else (p2.1, logMsg "步骤3: 跳过润色（用户选择）" p2.2)
  let p4 :=
    if enable_charts then
      generate_charts o (output_dir ++ "/charts") p3.1 (logMsg "步骤4: 分析和生成图表" p3.2)
    else ([], logMsg "步骤4: 跳过图表生成（用户选择）" p3.2)
  let stE := logMsg "步骤5: 格式化和输出报告" p4.2
  let p5 := format_and_save_report o output_dir base output_formats stE
  assemble_result topic report_type outline p3.1 p4.1 p5

/-- Embeds ReportCoordinator.reset_workflow: all five flags set to false and the
log replaced by the single reset message (the reset helper logs after clearing);
the chart counter is untouched. -/
def reset_workflow (st : CoordState) : CoordState :=
  logMsg "工作流程状态已重置" { st with workflow := {}, generation_log := [] }

end ReportCoordinator

/-! Supporting lemmas. -/

lemma strContains_append_self (t p : String) : strContains (t ++ p) p = true := by
  simp only [strContains, decide_eq_true_eq, String.data_append]
  exact (List.suffix_append t.data p.data).isInfix

lemma introMark_overview (t : String) : OutlineAgent.introMark (t ++ "概述") = true := by
  simp [OutlineAgent.introMark, strContains_append_self]

lemma hasIntro_default (t : String) :
    OutlineAgent.hasIntro (OutlineAgent.default_outline t) = true := by
  simp [OutlineAgent.hasIntro, OutlineAgent.default_outline, introMark_overview]

lemma hasConcl_default (t : String) :
    OutlineAgent.hasConcl (OutlineAgent.default_outline t) = true := by
  have h : OutlineAgent.conclMark "结论与建议" = true := by decide
  simp [OutlineAgent.hasConcl, OutlineAgent.default_outline, h]

lemma default_outline_length (t : String) : (OutlineAgent.default_outline t).length = 8 := by
  simp [OutlineAgent.default_outline]

lemma parse_outline_length_le (r : String) : (OutlineAgent.parse_outline r).length ≤ 10 := by
  simp only [OutlineAgent.parse_outline, List.length_take]
  omega

lemma hasIntro_cons_head (s : String) (l : List String)
    (h : OutlineAgent.introMark s = true) : OutlineAgent.hasIntro (s :: l) = true := by
  simp only [OutlineAgent.hasIntro, List.any_cons, h, Bool.true_or]

lemma hasIntro_append_left (l1 l2 : List String)
    (h : OutlineAgent.hasIntro l1 = true) : OutlineAgent.hasIntro (l1 ++ l2) = true := by
  simp only [OutlineAgent.hasIntro, List.any_append] at h ⊢
  rw [h, Bool.true_or]

lemma hasConcl_cons_tail (s : String) (l : List String)
    (h : OutlineAgent.hasConcl l = true) : OutlineAgent.hasConcl (s :: l) = true := by
  simp only [OutlineAgent.hasConcl, List.any_cons] at h ⊢
  rw [h, Bool.or_true]

lemma hasConcl_append_last (l : List String) (s : String)
    (h : OutlineAgent.conclMark s = true) : OutlineAgent.hasConcl (l ++ [s]) = true := by
  simp only [OutlineAgent.hasConcl, List.any_append, List.any_cons, List.any_nil, h,
    Bool.true_or, Bool.or_true]

lemma hasIntro_validate (outline : List String) (topic : String) :
    OutlineAgent.hasIntro (OutlineAgent.validate_outline outline topic) = true := by
  unfold OutlineAgent.validate_outline
  by_cases h3 : outline.length < 3
  · rw [if_pos h3]
    exact hasIntro_default topic
  · rw [if_neg h3]
    by_cases hc : OutlineAgent.hasConcl outline = true
    · rw [if_pos hc]
      by_cases hi : OutlineAgent.hasIntro outline = true
      · rwa [if_pos hi]
      · rw [if_neg hi]
        exact hasIntro_cons_head _ outline (introMark_overview topic)
    · rw [if_neg hc]
      by_cases hi : OutlineAgent.hasIntro outline = true
      · rw [if_pos hi]
        exact hasIntro_append_left _ _ hi
      · rw [if_neg hi]
        exact hasIntro_append_left _ _ (hasIntro_cons_head _ outline (introMark_overview topic))

lemma hasConcl_validate (outline : List String) (topic : String) :
    OutlineAgent.hasConcl (OutlineAgent.validate_outline outline topic) = true := by
  have hlit : OutlineAgent.conclMark "结论与展望" = true := by decide
  unfold OutlineAgent.validate_outline
  by_cases h3 : outline.length < 3
  · rw [if_pos h3]
    exact hasConcl_default topic
  · rw [if_neg h3]
    by_cases hc : OutlineAgent.hasConcl outline = true
    · rw [if_pos hc]
      by_cases hi : OutlineAgent.hasIntro outline = true
      · rwa [if_pos hi]
      · rw [if_neg hi]
        exact hasConcl_cons_tail _ outline hc
    · rw [if_neg hc]
      by_cases hi : OutlineAgent.hasIntro outline = true
      · rw [if_pos hi]
        exact hasConcl_append_last _ _ hlit
      · rw [if_neg hi]
        exact hasConcl_append_last _ _ hlit

lemma validate_length_bounds (outline : List String) (topic : String)
    (h10 : outline.length ≤ 10) :
    3 ≤ (OutlineAgent.validate_outline outline topic).length ∧
    (OutlineAgent.validate_outline outline topic).length ≤ 12 := by
  unfold OutlineAgent.validate_outline
  by_cases h3 : outline.length < 3
  · rw [if_pos h3]
    rw [default_outline_length]
    omega
  · rw [if_neg h3]
    by_cases hc : OutlineAgent.hasConcl outline = true
    · rw [if_pos hc]
      by_cases hi : OutlineAgent.hasIntro outline = true
      · rw [if_pos hi]
        omega
      · rw [if_neg hi]
        simp only [List.length_cons]
        omega
    · rw [if_neg hc]
      by_cases hi : OutlineAgent.hasIntro outline = true
      · rw [if_pos hi]
        simp only [List.length_append, List.length_cons, List.length_nil]
        omega
      · rw [if_neg hi]
        simp only [List.length_append, List.length_cons, List.length_nil]
        omega

/-! Claim C3. -/

/-- Claim C3 counterexample: a generation-service reply of ten long lines carrying
neither an introduction marker nor a conclusion marker is parsed to ten entries
and then validation inserts an introduction entry and appends a conclusion entry,
yielding a 12-entry outline, above the claimed maximum of 10. -/
theorem generate_outline_exceeds_ten :
    10 < (OutlineAgent.generate_outline
        (.ok "aaaa\nbbbb\ncccc\ndddd\neeee\nffff\ngggg\nhhhh\niiii\njjjj")
        "主题" "research").length ∧
    (OutlineAgent.generate_outline
        (.ok "aaaa\nbbbb\ncccc\ndddd\neeee\nffff\ngggg\nhhhh\niiii\njjjj")
        "主题" "research").length = 12 := by decide

/-- Claim C3 amended: every outline returned by generate_outline, for any topic,
report type, and generation-service reply, has between 3 and 12 entries inclusive
(the parser caps at 10, after which validation may insert an introduction entry
and append a conclusion entry), and always contains at least one entry bearing an
introduction marker and at least one entry bearing a conclusion marker. -/
theorem generate_outline_bounds (reply : Except String String) (topic rtype : String) :
    3 ≤ (OutlineAgent.generate_outline reply topic rtype).length ∧
    (OutlineAgent.generate_outline reply topic rtype).length ≤ 12 ∧
    OutlineAgent.hasIntro (OutlineAgent.generate_outline reply topic rtype) = true ∧
    OutlineAgent.hasConcl (OutlineAgent.generate_outline reply topic rtype) = true := by
  cases reply with
  | error e =>
      exact ⟨by simp [OutlineAgent.generate_outline, default_outline_length],
        by simp [OutlineAgent.generate_outline, default_outline_length],
        by simp [OutlineAgent.generate_outline, hasIntro_default],
        by simp [OutlineAgent.generate_outline, hasConcl_default]⟩
  | ok r =>
      have hb := validate_length_bounds (OutlineAgent.parse_outline r) topic
        (parse_outline_length_le r)
      exact ⟨by simpa [OutlineAgent.generate_outline] using hb.1,
        by simpa [OutlineAgent.generate_outline] using hb.2,
        by simpa [OutlineAgent.generate_outline] using
          hasIntro_validate (OutlineAgent.parse_outline r) topic,
        by simpa [OutlineAgent.generate_outline] using
          hasConcl_validate (OutlineAgent.parse_outline r) topic⟩

/-! Claim C8. -/

/-- Claim C8: the outline validation step is the identity on every outline that
already has at least 3 entries, an introduction-marked entry, and a
conclusion-marked entry, hence applying it twice equals applying it once. -/
theorem validate_outline_idempotent (outline : List String) (topic : String)
    (h3 : 3 ≤ outline.length) (hI : OutlineAgent.hasIntro outline = true)
    (hC : OutlineAgent.hasConcl outline = true) :
    OutlineAgent.validate_outline outline topic = outline ∧
    OutlineAgent.validate_outline (OutlineAgent.validate_outline outline topic) topic =
      OutlineAgent.validate_outline outline topic := by
  have hlt : ¬ outline.length < 3 := by omega
  have h1 : OutlineAgent.validate_outline outline topic = outline := by
    simp [OutlineAgent.validate_outline, hlt, hI, hC]
  exact ⟨h1, by rw [h1, h1]⟩

/-- Claim C8 witness at a concrete already-valid outline. -/
theorem validate_outline_idempotent_witness :
    3 ≤ (["报告引言", "核心分析", "结论展望"] : List String).length ∧
    OutlineAgent.hasIntro ["报告引言", "核心分析", "结论展望"] = true ∧
    OutlineAgent.hasConcl ["报告引言", "核心分析", "结论展望"] = true ∧
    OutlineAgent.validate_outline ["报告引言", "核心分析", "结论展望"] "主题" =
      ["报告引言", "核心分析", "结论展望"] := by
  refine ⟨by decide, by decide, by decide, ?_⟩
  exact (validate_outline_idempotent ["报告引言", "核心分析", "结论展望"] "主题"
    (by decide) (by decide) (by decide)).1

/-! Claim C4. -/

lemma dictInsert_of_not_mem (m : List (String × String)) (k v : String)
    (h : ∀ p ∈ m, ¬ p.1 = k) : dictInsert m k v = m ++ [(k, v)] := by
  unfold dictInsert
  rw [if_neg]
  simp only [List.any_eq_true, beq_iff_eq, not_exists]
  intro p hmem
  exact h p hmem.1 hmem.2

lemma generate_all_go_keys (reply : Nat → Except String String) (topic : String) :
    ∀ (outline : List String) (i : Nat) (acc : List (String × String)),
      outline.Nodup → (∀ t ∈ outline, ∀ p ∈ acc, ¬ p.1 = t) →
      (ContentAgent.generate_all_go reply topic outline i acc).map Prod.fst =
        acc.map Prod.fst ++ outline := by
  intro outline
  induction outline with
  | nil => intro i acc _ _; simp [ContentAgent.generate_all_go]
  | cons t rest ih =>
      intro i acc hnd hdisj
      rw [ContentAgent.generate_all_go,
        dictInsert_of_not_mem _ _ _ (fun p hp => hdisj t (List.mem_cons_self t rest) p hp)]
      rw [ih (i + 1) _ (List.Nodup.of_cons hnd) ?_]
      · simp
      · intro t2 ht2 p hp
        rcases List.mem_append.mp hp with hacc | hnew
        · exact hdisj t2 (List.mem_cons_of_mem _ ht2) p hacc
        · have hp1 : p.1 = t := by
            simp only [List.mem_singleton] at hnew
            rw [hnew]
          rw [hp1]
          intro hEq
          exact (List.nodup_cons.mp hnd).1 (hEq ▸ ht2)

/-- Claim C4 counterexample: an outline with a duplicated entry yields a section
dict with a single entry, not one entry per outline position. -/
theorem generate_all_sections_dup_counterexample :
    (ContentAgent.generate_all_sections (fun _ => .ok "正文内容。")
        ["分析章节", "分析章节"] "主题").length = 1 ∧
    ¬ ((ContentAgent.generate_all_sections (fun _ => .ok "正文内容。")
        ["分析章节", "分析章节"] "主题").length = 2) := by decide

/-- Claim C4 amended: for every outline whose entries are pairwise distinct, the
section dict produced by generate_all_sections has exactly one entry per outline
entry, keyed by the outline entries in outline order; a duplicated outline entry
instead collapses onto one key, since the dict is keyed by entry text. -/
theorem generate_all_sections_keys (reply : Nat → Except String String)
    (outline : List String) (topic : String) (h : outline.Nodup) :
    (ContentAgent.generate_all_sections reply outline topic).map Prod.fst = outline ∧
    (ContentAgent.generate_all_sections reply outline topic).length = outline.length := by
  have hk : (ContentAgent.generate_all_sections reply outline topic).map Prod.fst = outline := by
    unfold ContentAgent.generate_all_sections
    rw [generate_all_go_keys reply topic outline 0 [] h (by simp)]
    simp
  refine ⟨hk, ?_⟩
  have := congrArg List.length hk
  simpa using this

/-- Claim C4 witness at a concrete duplicate-free outline. -/
theorem generate_all_sections_keys_witness :
    (["引言综述", "结论建议"] : List String).Nodup ∧
    (ContentAgent.generate_all_sections (fun _ => .ok "正文内容。")
        ["引言综述", "结论建议"] "主题").map Prod.fst = ["引言综述", "结论建议"] := by
  refine ⟨by decide, ?_⟩
  exact (generate_all_sections_keys (fun _ => .ok "正文内容。")
    ["引言综述", "结论建议"] "主题" (by decide)).1

/-! Claim C6. -/

lemma polish_go_error (reply : Nat → Except String String) :
    ∀ (sections : List (String × String)) (start : Nat) (acc : List (String × String)),
      (∃ j, j < sections.length ∧ ∃ e, reply (start + j) = .error e) →
      ∃ e2, PolishAgent.polish_go reply sections start acc = .error e2 := by
  intro sections
  induction sections with
  | nil =>
      rintro start acc ⟨j, hj, -⟩
      simp at hj
  | cons sc rest ih =>
      rintro start acc ⟨j, hj, e, he⟩
      rw [PolishAgent.polish_go]
      cases hr : reply start with
      | error e0 => exact ⟨e0, rfl⟩
      | ok r =>
          cases j with
          | zero =>
              rw [Nat.add_zero, hr] at he
              cases he
          | succ j2 =>
              refine ih (start + 1) _ ⟨j2, by simpa using Nat.lt_of_succ_lt_succ hj, e, ?_⟩
              have harith : start + 1 + j2 = start + (j2 + 1) := by omega
              rw [harith]
              exact he

/-- Claim C6 counterexample: with two sections and a polish call that fails on the
first section but would succeed on the second, the coordinator returns both
sections unpolished — the second section is not polished, so the failure is not
local to the failing section. -/
theorem polish_failure_not_local_counterexample :
    (ReportCoordinator.polish_content
        (fun i => if i = 0 then .error "服务失败" else .ok "润色后文本")
        [("章节一", "原文一"), ("章节二", "原文二")] initState).1
      = [("章节一", "原文一"), ("章节二", "原文二")] ∧
    ¬ ((ReportCoordinator.polish_content
        (fun i => if i = 0 then .error "服务失败" else .ok "润色后文本")
        [("章节一", "原文一"), ("章节二", "原文二")] initState).1
      = [("章节一", "原文一"), ("章节二", "润色后文本")]) := by decide

/-- Claim C6 amended: a failure while polishing any single section aborts the
whole full-report polish (the contextual polish helper has no per-section
handler), and the coordinator then falls back to the complete pre-polish section
dict: no section at all is polished. -/
theorem polish_single_failure_aborts (reply : Nat → Except String String)
    (sections : List (String × String)) (st : CoordState) (i : Nat) (e : String)
    (hi : i < sections.length) (he : reply i = .error e) :
    (ReportCoordinator.polish_content reply sections st).1 = sections := by
  obtain ⟨e2, h⟩ := polish_go_error reply sections 0 [] ⟨i, hi, e, by simpa using he⟩
  unfold ReportCoordinator.polish_content PolishAgent.polish_full_report
  rw [h]

/-- Claim C6 amended witness at a concrete failing polish run. -/
theorem polish_single_failure_aborts_witness :
    0 < ([("章节一", "原文一")] : List (String × String)).length ∧
    (fun (_ : Nat) => (.error "超时" : Except String String)) 0 = .error "超时" ∧
    (ReportCoordinator.polish_content (fun _ => .error "超时")
        [("章节一", "原文一")] initState).1 = [("章节一", "原文一")] := by
  refine ⟨by decide, rfl, ?_⟩
  exact polish_single_failure_aborts (fun _ => .error "超时")
    [("章节一", "原文一")] initState 0 "超时" (by decide) rfl

/-! Claim C7. -/

lemma extract_requirements_length_le (text : String) :
    (ChartAgent.extract_requirements_from_text text).length ≤ 3 := by
  simp only [ChartAgent.extract_requirements_from_text, List.length_take]
  omega

lemma extract_requirements_mem (text : String) (q : ChartAgent.ChartReq)
    (hq : q ∈ ChartAgent.extract_requirements_from_text text) :
    ∃ kw ∈ ChartAgent.chart_keywords, q.chart_type = kw.2 ∧ q.title = kw.1 ++ "示例" := by
  unfold ChartAgent.extract_requirements_from_text at hq
  have hq2 := List.take_subset 3 _ hq
  rcases List.mem_map.mp hq2 with ⟨kw, hkw, hEq⟩
  refine ⟨kw, List.mem_of_mem_filter hkw, ?_, ?_⟩
  · rw [← hEq]
  · rw [← hEq]

lemma analyze_section_fallback (reply : Except String String)
    (jsonLoads : String → Option (List ChartAgent.ChartReq)) (t c : String)
    (hJ : ∀ s, jsonLoads s = none) :
    (ChartAgent.analyze_section_for_visualization reply jsonLoads t c).length ≤ 3 ∧
    ∀ q ∈ ChartAgent.analyze_section_for_visualization reply jsonLoads t c,
      ∃ kw ∈ ChartAgent.chart_keywords, q.chart_type = kw.2 ∧ q.title = kw.1 ++ "示例" := by
  cases reply with
  | error e => simp [ChartAgent.analyze_section_for_visualization]
  | ok r =>
      have hred : ChartAgent.analyze_section_for_visualization (.ok r) jsonLoads t c =
          (ChartAgent.extract_requirements_from_text r).map (fun q =>
            { q with section_title := t, section_content := ofL (c.data.take 200) ++ "..." }) := by
        unfold ChartAgent.analyze_section_for_visualization ChartAgent.parse_chart_requirements
        dsimp only
        rw [hJ r]
      rw [hred]
      constructor
      · simpa using extract_requirements_length_le r
      · intro q hq
        rcases List.mem_map.mp hq with ⟨q0, hq0, hEq⟩
        rcases extract_requirements_mem r q0 hq0 with ⟨kw, hkw, h1, h2⟩
        exact ⟨kw, hkw, by rw [← hEq]; exact h1, by rw [← hEq]; exact h2⟩

lemma analyze_go_fallback (reply : Nat → Except String String)
    (jsonLoads : String → Option (List ChartAgent.ChartReq))
    (hJ : ∀ s, jsonLoads s = none) :
    ∀ (sections : List (String × String)) (i : Nat),
      (ChartAgent.analyze_go reply jsonLoads sections i).length ≤ 3 * sections.length ∧
      ∀ q ∈ ChartAgent.analyze_go reply jsonLoads sections i,
        ∃ kw ∈ ChartAgent.chart_keywords, q.chart_type = kw.2 ∧ q.title = kw.1 ++ "示例" := by
  intro sections
  induction sections with
  | nil => intro i; simp [ChartAgent.analyze_go]
  | cons sc rest ih =>
      intro i
      rw [ChartAgent.analyze_go]
      obtain ⟨hlen1, hmem1⟩ := analyze_section_fallback (reply i) jsonLoads sc.1 sc.2 hJ
      obtain ⟨hlen2, hmem2⟩ := ih (i + 1)
      constructor
      · rw [List.length_append]
        simp only [List.length_cons]
        omega
      · intro q hq
        rcases List.mem_append.mp hq with h | h
        · exact hmem1 q h
        · exact hmem2 q h

/-- Claim C7: when json.loads fails on every chart-analysis reply, chart selection
still returns a list, built purely from the keyword scan of the reply text against
the fixed keyword-to-chart-kind table, with at most 3 fallback requests per
analyzed section. -/
theorem chart_selection_fallback (reply : Nat → Except String String)
    (jsonLoads : String → Option (List ChartAgent.ChartReq))
    (sections : List (String × String)) (hJ : ∀ s, jsonLoads s = none) :
    (ChartAgent.analyze_content_for_charts reply jsonLoads sections).length ≤
      3 * sections.length ∧
    ∀ q ∈ ChartAgent.analyze_content_for_charts reply jsonLoads sections,
      ∃ kw ∈ ChartAgent.chart_keywords, q.chart_type = kw.2 ∧ q.title = kw.1 ++ "示例" := by
  unfold ChartAgent.analyze_content_for_charts
  exact analyze_go_fallback reply jsonLoads hJ sections 0

/-- Claim C7 witness: a concrete always-malformed parse oracle. -/
theorem chart_selection_fallback_witness :
    (∀ s : String, (fun (_ : String) => (none : Option (List ChartAgent.ChartReq))) s = none) ∧
    ((ChartAgent.analyze_content_for_charts (fun _ => .ok "建议使用柱状图展示对比")
        (fun _ => none) [("分析章节", "章节内容")]).length ≤ 3 * 1 ∧
      ∀ q ∈ ChartAgent.analyze_content_for_charts (fun _ => .ok "建议使用柱状图展示对比")
          (fun _ => none) [("分析章节", "章节内容")],
        ∃ kw ∈ ChartAgent.chart_keywords, q.chart_type = kw.2 ∧ q.title = kw.1 ++ "示例") := by
  refine ⟨fun s => rfl, ?_⟩
  simpa using chart_selection_fallback (fun _ => .ok "建议使用柱状图展示对比")
    (fun _ => none) [("分析章节", "章节内容")] (fun s => rfl)

/-! Claim C10. -/

/-- Claim C10: generate_charts keys its result dict by requirement title, so of two
successfully rendered requirements sharing a title, the later overwrites the
entry of the earlier, and the dict ends up with strictly fewer entries than the
number of successfully rendered requirements. -/
theorem generate_charts_title_overwrite (renderOk : Nat → Bool) (dir : String)
    (r1 r2 : ChartAgent.ChartReq) (c0 : Nat)
    (ht : r1.title = r2.title)
    (h1 : r1.chart_type ∈ ChartAgent.supported_plot_types)
    (h2 : r2.chart_type ∈ ChartAgent.supported_plot_types)
    (hr1 : renderOk (c0 + 1) = true) (hr2 : renderOk (c0 + 2) = true) :
    (ChartAgent.generate_charts renderOk dir [r1, r2] c0).1 =
      [(r2.title, dir ++ "/" ++ ChartAgent.chart_filename (c0 + 2) r2)] ∧
    (ChartAgent.generate_charts renderOk dir [r1, r2] c0).1.length < 2 := by
  have hr2b : renderOk (c0 + 1 + 1) = true := hr2
  have hstep : (ChartAgent.generate_charts renderOk dir [r1, r2] c0).1 =
      [(r2.title, dir ++ "/" ++ ChartAgent.chart_filename (c0 + 2) r2)] := by
    simp [ChartAgent.generate_charts, ChartAgent.generate_charts_go,
      ChartAgent.generate_single_chart, h1, h2, hr1, hr2b, dictInsert, ht]
  refine ⟨hstep, ?_⟩
  rw [hstep]
  simp only [List.length_cons, List.length_nil]
  omega

/-! Claim C9. -/

lemma known_contains_markdown :
    ReportCoordinator.known_export_formats.contains "markdown" = true := by decide

lemma known_contains_json :
    ReportCoordinator.known_export_formats.contains "json" = true := by decide

lemma known_contains_docx :
    ReportCoordinator.known_export_formats.contains "docx" = true := by decide

lemma export_go_filter (o : Oracles) (d b : String) :
    ∀ (fs : List String) (files : List (String × String)) (st : CoordState),
      ReportCoordinator.export_go o d b fs files st =
        ReportCoordinator.export_go o d b
          (fs.filter (fun f => ReportCoordinator.known_export_formats.contains f)) files st := by
  intro fs
  induction fs with
  | nil => intro files st; rfl
  | cons f rest ih =>
      intro files st
      rw [List.filter_cons]
      by_cases h1 : f = "markdown"
      · subst h1
        rw [if_pos known_contains_markdown]
        rw [ReportCoordinator.export_go, ReportCoordinator.export_go]
        simp only [if_pos rfl]
        cases o.mdWrite with
        | ok u => exact ih _ _
        | error e => rfl
      · by_cases h2 : f = "json"
        · subst h2
          rw [if_pos known_contains_json]
          rw [ReportCoordinator.export_go, ReportCoordinator.export_go]
          have hne : ¬ ("json" = "markdown") := by decide
          simp only [if_neg hne, if_pos rfl]
          cases o.jsonWrite with
          | ok u => exact ih _ _
          | error e => rfl
        · by_cases h3 : f = "docx"
          · subst h3
            rw [if_pos known_contains_docx]
            rw [ReportCoordinator.export_go, ReportCoordinator.export_go]
            have hne1 : ¬ ("docx" = "markdown") := by decide
            have hne2 : ¬ ("docx" = "json") := by decide
            simp only [if_neg hne1, if_neg hne2, if_pos rfl]
            cases o.docxWrite with
            | ok => exact ih _ _
            | importError => exact ih _ _
            | failed e => exact ih _ _
          · have hmem : ¬ f ∈ ReportCoordinator.known_export_formats := by
              simp [ReportCoordinator.known_export_formats, h1, h2, h3]
            have hcon : ReportCoordinator.known_export_formats.contains f = false := by
              cases hc : ReportCoordinator.known_export_formats.contains f
              · rfl
              · exact absurd (List.elem_iff.mp hc) hmem
            rw [hcon]
            simp only [Bool.false_eq_true, if_false]
            rw [ReportCoordinator.export_go]
            rw [if_neg h1, if_neg h2, if_neg h3]
            exact ih _ _

lemma map_fst_update (m : List (String × String)) (k v : String) :
    List.map Prod.fst (m.map (fun p => if p.1 == k then (k, v) else p)) =
      m.map Prod.fst := by
  induction m with
  | nil => rfl
  | cons p rest ihm =>
      simp only [List.map_cons]
      by_cases hp : (p.1 == k) = true
      · rw [if_pos hp, ihm]
        have hpk : p.1 = k := beq_iff_eq.mp hp
        simp [hpk]
      · rw [if_neg hp, ihm]

lemma dictInsert_keys (m : List (String × String)) (k v : String) :
    (dictInsert m k v).map Prod.fst = m.map Prod.fst ∨
    (dictInsert m k v).map Prod.fst = m.map Prod.fst ++ [k] := by
  unfold dictInsert
  by_cases h : m.any (fun p => p.1 == k) = true
  · rw [if_pos h]
    exact Or.inl (map_fst_update m k v)
  · rw [if_neg h]
    right
    simp

/-- Predicate used below: every key of an export-result file map is one of the
three recognized formats. -/
def exportKeysKnown (r : Except String (List (String × String))) : Bool :=
  match r with
  | .ok files => (files.map Prod.fst).all (fun k => ReportCoordinator.known_export_formats.contains k)
  | .error _ => true

lemma all_keys_append (l : List String) (k : String)
    (hl : l.all (fun x => ReportCoordinator.known_export_formats.contains x) = true)
    (hk : ReportCoordinator.known_export_formats.contains k = true) :
    (l ++ [k]).all (fun x => ReportCoordinator.known_export_formats.contains x) = true := by
  rw [List.all_append, hl, Bool.true_and]
  simp only [List.all_cons, List.all_nil, hk, Bool.and_true]

lemma export_go_keys_known (o : Oracles) (d b : String) :
    ∀ (fs : List String) (files : List (String × String)) (st : CoordState),
      (files.map Prod.fst).all (fun k => ReportCoordinator.known_export_formats.contains k) = true →
      exportKeysKnown (ReportCoordinator.export_go o d b fs files st).1 = true := by
  intro fs
  induction fs with
  | nil =>
      intro files st h
      simpa [ReportCoordinator.export_go, exportKeysKnown] using h
  | cons f rest ih =>
      intro files st h
      rw [ReportCoordinator.export_go]
      by_cases h1 : f = "markdown"
      · rw [if_pos h1]
        cases o.mdWrite with
        | ok u =>
            apply ih
            rcases dictInsert_keys files "markdown" (d ++ "/" ++ b ++ ".md") with hk | hk
            · rw [hk]; exact h
            · rw [hk]; exact all_keys_append _ _ h known_contains_markdown
        | error e => rfl
      · rw [if_neg h1]
        by_cases h2 : f = "json"
        · rw [if_pos h2]
          cases o.jsonWrite with
          | ok u =>
              apply ih
              rcases dictInsert_keys files "json" (d ++ "/" ++ b ++ ".json") with hk | hk
              · rw [hk]; exact h
              · rw [hk]; exact all_keys_append _ _ h known_contains_json
          | error e => rfl
        · rw [if_neg h2]
          by_cases h3 : f = "docx"
          · rw [if_pos h3]
            cases o.docxWrite with
            | ok =>
                apply ih
                rcases dictInsert_keys files "docx" (d ++ "/" ++ b ++ ".docx") with hk | hk
                · rw [hk]; exact h
                · rw [hk]; exact all_keys_append _ _ h known_contains_docx
            | importError => exact ih _ _ h
            | failed e => exact ih _ _ h
          · rw [if_neg h3]
            exact ih _ _ h

/-- Claim C9: the export step ignores every unrecognized entry of the requested
format list — running it on a format list equals running it on the sublist of
recognized formats (so an unrecognized entry writes no file, logs nothing,
raises nothing, while the recognized formats of the same list are still
processed) — and every key of a returned file map is a recognized format. -/
theorem export_ignores_unknown_formats (o : Oracles) (d b : String)
    (formats : List String) (st : CoordState) :
    ReportCoordinator.format_and_save_report o d b formats st =
      ReportCoordinator.format_and_save_report o d b
        (formats.filter (fun f => ReportCoordinator.known_export_formats.contains f)) st ∧
    exportKeysKnown (ReportCoordinator.format_and_save_report o d b formats st).1 = true := by
  constructor
  · exact export_go_filter o d b formats [] st
  · exact export_go_keys_known o d b formats [] st (by simp)

/-! Claim C2. -/

/-- Oracle bundle for the C2 counterexample: every stage reply succeeds, but the
markdown file write raises. -/
def c2Oracles : Oracles :=
  ⟨.ok "引言概述\n主体分析\n结论总结", fun _ => .ok "正文内容。", fun _ => .ok "润色文本",
   fun _ => .ok "x", fun _ => none, fun _ => true, .error "磁盘写入失败", .ok (), .ok⟩

/-- Claim C2 counterexample: with markdown and json requested and the markdown
write failing, the whole run returns status error (the json format is never
attempted and the run does not report success). -/
theorem export_failure_aborts_run_counterexample :
    (ReportCoordinator.generate_report c2Oracles "output" "report1" "主题" "research"
        false false ["markdown", "json"] initState).1.status = "error" ∧
    (ReportCoordinator.generate_report c2Oracles "output" "report1" "主题" "research"
        false false ["markdown", "json"] initState).1.errorOf =
      some ("报告格式化失败: " ++ "磁盘写入失败") := by decide

lemma assemble_result_status (t rt : String) (ol : List String)
    (se ch : List (String × String))
    (p5 : Except String (List (String × String)) × CoordState) :
    (ReportCoordinator.assemble_result t rt ol se ch p5).1.status =
      (match p5.1 with | .ok _ => "success" | .error _ => "error") := by
  rcases p5 with ⟨res, stx⟩
  cases res <;> rfl

/-- Claim C2 amended: a failure while writing the markdown or json format aborts
the export — the error is logged, later formats are not attempted, and the export
raises so the run ends with status error; only a docx failure is recoverable per
format: it is logged and the remaining formats still attempted, and when docx is
the only requested format and fails, the export returns an empty file map with
the formatted flag set and a logged warning, and the run still reports success. -/
theorem export_per_format_policy (o : Oracles) (d b : String) (fs : List String)
    (st : CoordState) (topic rtype : String) (e1 e2 e3 : String)
    (hm : o.mdWrite = .error e1) (hj : o.jsonWrite = .error e2)
    (hd : o.docxWrite = .failed e3) :
    ReportCoordinator.format_and_save_report o d b ("markdown" :: fs) st =
      (.error ("报告格式化失败: " ++ e1), logMsg ("报告格式化失败: " ++ e1) st) ∧
    ReportCoordinator.format_and_save_report o d b ("json" :: fs) st =
      (.error ("报告格式化失败: " ++ e2), logMsg ("报告格式化失败: " ++ e2) st) ∧
    ReportCoordinator.format_and_save_report o d b ("docx" :: fs) st =
      ReportCoordinator.export_go o d b fs [] (logMsg ("Word格式输出失败: " ++ e3) st) ∧
    (ReportCoordinator.format_and_save_report o d b ["docx"] st).1 = .ok [] ∧
    (ReportCoordinator.format_and_save_report o d b ["docx"] st).2.workflow.report_formatted
      = true ∧
    (ReportCoordinator.format_and_save_report o d b ["docx"] st).2.generation_log =
      st.generation_log ++ ["Word格式输出失败: " ++ e3, "报告已保存为 0 种格式"] ∧
    (ReportCoordinator.generate_report o d b topic rtype false false ["docx"] st).1.status =
      "success" := by
  have hne1 : ¬ ("docx" = "markdown") := by decide
  have hne2 : ¬ ("docx" = "json") := by decide
  have hne3 : ¬ ("json" = "markdown") := by decide
  have hzero : ("报告已保存为 " ++ toString (0 : Nat) ++ " 种格式")
      = "报告已保存为 0 种格式" := by decide
  have hdocxStep : ∀ s : CoordState,
      ReportCoordinator.format_and_save_report o d b ["docx"] s =
        (.ok [], logMsg "报告已保存为 0 种格式"
          { (logMsg ("Word格式输出失败: " ++ e3) s) with
              workflow := { (logMsg ("Word格式输出失败: " ++ e3) s).workflow with
                report_formatted := true } }) := by
    intro s
    simp only [ReportCoordinator.format_and_save_report, ReportCoordinator.export_go, hd,
      if_neg hne1, if_neg hne2, eq_self_iff_true, if_true, List.length_nil, hzero]
  refine ⟨?_, ?_, ?_, ?_, ?_, ?_, ?_⟩
  · simp only [ReportCoordinator.format_and_save_report, ReportCoordinator.export_go,
      eq_self_iff_true, if_true, hm]
  · simp only [ReportCoordinator.format_and_save_report, ReportCoordinator.export_go,
      if_neg hne3, eq_self_iff_true, if_true, hj]
  · simp only [ReportCoordinator.format_and_save_report, ReportCoordinator.export_go,
      if_neg hne1, if_neg hne2, eq_self_iff_true, if_true, hd]
  · rw [hdocxStep st]
  · rw [hdocxStep st]
    rfl
  · rw [hdocxStep st]
    simp [logMsg]
  · simp only [ReportCoordinator.generate_report]
    rw [assemble_result_status]
    rw [hdocxStep]

/-- Oracle bundle for the C2 amended witness: markdown, json and docx writes all
fail. -/
def c2wOracles : Oracles :=
  ⟨.ok "引言概述\n主体分析\n结论总结", fun _ => .ok "正文内容。", fun _ => .ok "润色文本",
   fun _ => .ok "x", fun _ => none, fun _ => true, .error "磁盘已满",
   .error "序列化失败", .failed "库缺失"⟩

/-- Claim C2 amended witness at a concrete all-failing export oracle. -/
theorem export_per_format_policy_witness :
    c2wOracles.mdWrite = .error "磁盘已满" ∧
    c2wOracles.jsonWrite = .error "序列化失败" ∧
    c2wOracles.docxWrite = .failed "库缺失" ∧
    (ReportCoordinator.format_and_save_report c2wOracles "output" "rep" ["docx"]
        initState).1 = .ok [] ∧
    (ReportCoordinator.generate_report c2wOracles "output" "rep" "主题" "research"
        false false ["docx"] initState).1.status = "success" := by
  refine ⟨rfl, rfl, rfl, ?_, ?_⟩
  · exact (export_per_format_policy c2wOracles "output" "rep" [] initState "主题" "research"
      "磁盘已满" "序列化失败" "库缺失" rfl rfl rfl).2.2.2.1
  · exact (export_per_format_policy c2wOracles "output" "rep" [] initState "主题" "research"
      "磁盘已满" "序列化失败" "库缺失" rfl rfl rfl).2.2.2.2.2.2

/-! Claim C1. -/

lemma assemble_result_spec (t rt : String) (ol : List String)
    (se ch : List (String × String))
    (p5 : Except String (List (String × String)) × CoordState) :
    ((ReportCoordinator.assemble_result t rt ol se ch p5).1.status = "success" ∨
      (ReportCoordinator.assemble_result t rt ol se ch p5).1.status = "error") ∧
    (ReportCoordinator.assemble_result t rt ol se ch p5).1.workflowOf =
      (ReportCoordinator.assemble_result t rt ol se ch p5).2.workflow ∧
    (ReportCoordinator.assemble_result t rt ol se ch p5).1.logOf =
      (ReportCoordinator.assemble_result t rt ol se ch p5).2.generation_log ∧
    (ReportCoordinator.assemble_result t rt ol se ch p5).1.errorOf.isSome =
      ((ReportCoordinator.assemble_result t rt ol se ch p5).1.status == "error") := by
  rcases p5 with ⟨res, stx⟩
  cases res with
  | ok files => exact ⟨Or.inl rfl, rfl, rfl, rfl⟩
  | error e => exact ⟨Or.inr rfl, rfl, rfl, rfl⟩

/-- Claim C1: generate_report is a total function of its oracles — it never
raises — and always returns a result dict whose status is success or error,
carrying the final workflow snapshot and the full generation log, with an error
message present exactly in the error case. -/
theorem generate_report_total (o : Oracles) (d b topic rtype : String) (ec ep : Bool)
    (formats : List String) (st : CoordState) :
    ((ReportCoordinator.generate_report o d b topic rtype ec ep formats st).1.status =
        "success" ∨
      (ReportCoordinator.generate_report o d b topic rtype ec ep formats st).1.status =
        "error") ∧
    (ReportCoordinator.generate_report o d b topic rtype ec ep formats st).1.workflowOf =
      (ReportCoordinator.generate_report o d b topic rtype ec ep formats st).2.workflow ∧
    (ReportCoordinator.generate_report o d b topic rtype ec ep formats st).1.logOf =
      (ReportCoordinator.generate_report o d b topic rtype ec ep formats st).2.generation_log ∧
    (ReportCoordinator.generate_report o d b topic rtype ec ep formats st).1.errorOf.isSome =
      ((ReportCoordinator.generate_report o d b topic rtype ec ep formats st).1.status ==
        "error") := by
  unfold ReportCoordinator.generate_report
  exact assemble_result_spec topic rtype _ _ _ _

/-! Claim C5. -/

/-- Pointwise boolean implication between workflow snapshots: every flag set in
the first is set in the second. -/
def wfLe (a b : Workflow) : Bool :=
  (!a.outline_generated || b.outline_generated) &&
  (!a.content_generated || b.content_generated) &&
  (!a.content_polished || b.content_polished) &&
  (!a.charts_generated || b.charts_generated) &&
  (!a.report_formatted || b.report_formatted)

lemma wfLe_refl (w : Workflow) : wfLe w w = true := by
  cases w with
  | mk a b c d e =>
      cases a <;> cases b <;> cases c <;> cases d <;> cases e <;> rfl

lemma bool_imp_trans {x y z : Bool} (h1 : (!x || y) = true) (h2 : (!y || z) = true) :
    (!x || z) = true := by
  cases x <;> cases y <;> cases z <;> simp_all

lemma wfLe_trans {a b c : Workflow} (h1 : wfLe a b = true) (h2 : wfLe b c = true) :
    wfLe a c = true := by
  simp only [wfLe, Bool.and_eq_true] at h1 h2 ⊢
  obtain ⟨⟨⟨⟨ha1, ha2⟩, ha3⟩, ha4⟩, ha5⟩ := h1
  obtain ⟨⟨⟨⟨hb1, hb2⟩, hb3⟩, hb4⟩, hb5⟩ := h2
  exact ⟨⟨⟨⟨bool_imp_trans ha1 hb1, bool_imp_trans ha2 hb2⟩, bool_imp_trans ha3 hb3⟩,
    bool_imp_trans ha4 hb4⟩, bool_imp_trans ha5 hb5⟩

lemma wfLe_set_outline (w : Workflow) : wfLe w { w with outline_generated := true } = true := by
  cases w with
  | mk a b c d e =>
      cases a <;> cases b <;> cases c <;> cases d <;> cases e <;> rfl

lemma wfLe_set_content (w : Workflow) : wfLe w { w with content_generated := true } = true := by
  cases w with
  | mk a b c d e =>
      cases a <;> cases b <;> cases c <;> cases d <;> cases e <;> rfl

lemma wfLe_set_polished (w : Workflow) : wfLe w { w with content_polished := true } = true := by
  cases w with
  | mk a b c d e =>
      cases a <;> cases b <;> cases c <;> cases d <;> cases e <;> rfl

lemma wfLe_set_charts (w : Workflow) : wfLe w { w with charts_generated := true } = true := by
  cases w with
  | mk a b c d e =>
      cases a <;> cases b <;> cases c <;> cases d <;> cases e <;> rfl

lemma wfLe_set_formatted (w : Workflow) : wfLe w { w with report_formatted := true } = true := by
  cases w with
  | mk a b c d e =>
      cases a <;> cases b <;> cases c <;> cases d <;> cases e <;> rfl

lemma generate_outline_mono_from {w : Workflow} (reply : Except String String)
    (topic rtype : String) (st : CoordState) (h : wfLe w st.workflow = true) :
    wfLe w ((ReportCoordinator.generate_outline reply topic rtype st).2).workflow = true :=
  wfLe_trans h (wfLe_set_outline st.workflow)

lemma generate_content_mono_from {w : Workflow} (reply : Nat → Except String String)
    (outline : List String) (topic : String) (st : CoordState)
    (h : wfLe w st.workflow = true) :
    wfLe w ((ReportCoordinator.generate_content reply outline topic st).2).workflow = true :=
  wfLe_trans h (wfLe_set_content st.workflow)

lemma polish_content_mono_from {w : Workflow} (reply : Nat → Except String String)
    (sections : List (String × String)) (st : CoordState)
    (h : wfLe w st.workflow = true) :
    wfLe w ((ReportCoordinator.polish_content reply sections st).2).workflow = true := by
  unfold ReportCoordinator.polish_content
  cases PolishAgent.polish_full_report reply sections with
  | ok polished => exact wfLe_trans h (wfLe_set_polished st.workflow)
  | error e => exact h

lemma generate_charts_mono_from {w : Workflow} (o : Oracles) (dir : String)
    (sections : List (String × String)) (st : CoordState)
    (h : wfLe w st.workflow = true) :
    wfLe w ((ReportCoordinator.generate_charts o dir sections st).2).workflow = true := by
  unfold ReportCoordinator.generate_charts
  by_cases hr : (ChartAgent.analyze_content_for_charts o.chartReply o.jsonLoads
      sections).isEmpty = true
  · rw [if_pos hr]
    exact h
  · rw [if_neg hr]
    exact wfLe_trans h (wfLe_set_charts st.workflow)

lemma export_go_mono_from {w : Workflow} (o : Oracles) (d b : String) :
    ∀ (fs : List String) (files : List (String × String)) (st : CoordState),
      wfLe w st.workflow = true →
      wfLe w ((ReportCoordinator.export_go o d b fs files st).2).workflow = true := by
  intro fs
  induction fs with
  | nil =>
      intro files st h
      exact wfLe_trans h (wfLe_set_formatted st.workflow)
  | cons f rest ih =>
      intro files st h
      rw [ReportCoordinator.export_go]
      by_cases h1 : f = "markdown"
      · rw [if_pos h1]
        cases o.mdWrite with
        | ok u => exact ih _ _ h
        | error e => exact h
      · rw [if_neg h1]
        by_cases h2 : f = "json"
        · rw [if_pos h2]
          cases o.jsonWrite with
          | ok u => exact ih _ _ h
          | error e => exact h
        · rw [if_neg h2]
          by_cases h3 : f = "docx"
          · rw [if_pos h3]
            cases o.docxWrite with
            | ok => exact ih _ _ h
            | importError => exact ih _ _ h
            | failed e => exact ih _ _ h
          · rw [if_neg h3]
            exact ih _ _ h

lemma logMsg_workflow (m : String) (st : CoordState) : (logMsg m st).workflow = st.workflow :=
  rfl

lemma assemble_result_workflow (t rt : String) (ol : List String)
    (se ch : List (String × String))
    (p5 : Except String (List (String × String)) × CoordState) :
    ((ReportCoordinator.assemble_result t rt ol se ch p5).2).workflow = p5.2.workflow := by
  rcases p5 with ⟨res, stx⟩
  cases res <;> rfl

/-- Oracle bundle for the C5 counterexample: every external call succeeds. -/
def okOracles : Oracles :=
  ⟨.ok "引言概述\n主体分析\n结论总结", fun _ => .ok "正文内容。", fun _ => .ok "润色文本",
   fun _ => .ok "x", fun _ => none, fun _ => true, .ok (), .ok (), .ok⟩

/-- Claim C5 counterexample: after a first successful run with polish enabled,
a second run with polish disabled still reports a workflow snapshot whose
polish flag is true — generate_report does not reset the workflow state at the
start of a run, so flags leak across runs. -/
theorem workflow_not_reset_counterexample :
    (ReportCoordinator.generate_report okOracles "output" "r2" "主题" "research" false false
        ["markdown"]
        ((ReportCoordinator.generate_report okOracles "output" "r1" "主题" "research" false true
            ["markdown"] initState).2)).1.workflowOf.content_polished = true ∧
    (ReportCoordinator.generate_report okOracles "output" "r2" "主题" "research" false false
        ["markdown"]
        ((ReportCoordinator.generate_report okOracles "output" "r1" "主题" "research" false true
            ["markdown"] initState).2)).1.status = "success" := by decide

/-- Claim C5 amended: the workflow state is not reset at the start of a run and
persists across runs; within any single run every stage flag only transitions
from false to true (the final workflow dominates the initial one pointwise), and
only the explicit reset_workflow call sets all five flags back to false and
clears the log, leaving just its own reset message. -/
theorem workflow_flags_monotone_and_reset (o : Oracles) (d b topic rtype : String)
    (ec ep : Bool) (formats : List String) (st : CoordState) :
    wfLe st.workflow
      ((ReportCoordinator.generate_report o d b topic rtype ec ep formats st).2).workflow
      = true ∧
    ReportCoordinator.reset_workflow st =
      { workflow := {}, generation_log := ["工作流程状态已重置"],
        chart_counter := st.chart_counter } := by
  refine ⟨?_, rfl⟩
  cases ec with
  | false =>
      cases ep with
      | false =>
          simp only [ReportCoordinator.generate_report, assemble_result_workflow,
            ReportCoordinator.format_and_save_report, Bool.false_eq_true, eq_self_iff_true,
            if_false, if_true]
          apply export_go_mono_from o d b formats []
          simp only [logMsg_workflow]
          apply generate_content_mono_from
          simp only [logMsg_workflow]
          apply generate_outline_mono_from
          simp only [logMsg_workflow]
          exact wfLe_refl st.workflow
      | true =>
          simp only [ReportCoordinator.generate_report, assemble_result_workflow,
            ReportCoordinator.format_and_save_report, Bool.false_eq_true, eq_self_iff_true,
            if_false, if_true]
          apply export_go_mono_from o d b formats []
          simp only [logMsg_workflow]
          apply polish_content_mono_from
          simp only [logMsg_workflow]
          apply generate_content_mono_from
          simp only [logMsg_workflow]
          apply generate_outline_mono_from
          simp only [logMsg_workflow]
          exact wfLe_refl st.workflow
  | true =>
      cases ep with
      | false =>
          simp only [ReportCoordinator.generate_report, assemble_result_workflow,
            ReportCoordinator.format_and_save_report, Bool.false_eq_true, eq_self_iff_true,
            if_false, if_true]
          apply export_go_mono_from o d b formats []
          simp only [logMsg_workflow]
          apply generate_charts_mono_from
          simp only [logMsg_workflow]
          apply generate_content_mono_from
          simp only [logMsg_workflow]
          apply generate_outline_mono_from
          simp only [logMsg_workflow]
          exact wfLe_refl st.workflow
      | true =>
          simp only [ReportCoordinator.generate_report, assemble_result_workflow,
            ReportCoordinator.format_and_save_report, Bool.false_eq_true, eq_self_iff_true,
            if_false, if_true]
          apply export_go_mono_from o d b formats []
          simp only [logMsg_workflow]
          apply generate_charts_mono_from
          simp only [logMsg_workflow]
          apply polish_content_mono_from
          simp only [logMsg_workflow]
          apply generate_content_mono_from
          simp only [logMsg_workflow]
          apply generate_outline_mono_from
          simp only [logMsg_workflow]
          exact wfLe_refl st.workflow

/-- Claim C10 witness at two concrete same-title requirements. -/
theorem generate_charts_title_overwrite_witness :
    (({ chart_type := "bar", title := "对比图", description := "描述一" } :
        ChartAgent.ChartReq).title =
      ({ chart_type := "line", title := "对比图", description := "描述二" } :
        ChartAgent.ChartReq).title) ∧
    (ChartAgent.generate_charts (fun _ => true) "output/charts"
        [{ chart_type := "bar", title := "对比图", description := "描述一" },
         { chart_type := "line", title := "对比图", description := "描述二" }] 0).1 =
      [("对比图", "output/charts" ++ "/" ++ ChartAgent.chart_filename 2
        { chart_type := "line", title := "对比图", description := "描述二" })] := by
  refine ⟨rfl, ?_⟩
  exact (generate_charts_title_overwrite (fun _ => true) "output/charts"
    { chart_type := "bar", title := "对比图", description := "描述一" }
    { chart_type := "line", title := "对比图", description := "描述二" } 0
    rfl (by decide) (by decide) rfl rfl).1

end Report
